import Mathlib

/-!
Verification development for the connector-os lead-generation scripts.

The repository is a collection of Python scripts, each a linear
fetch → normalize → score → export pipeline.  This file gives a shallow
embedding of the functions the checked properties concern:

* `extract_lead`            — scripts/72h-sprint/myo-demand-healthcare.py
* `save_to_csv`             — scripts/72h-sprint/myo-supply-healthcare-startups.py
* `export_csv`              — scripts/nih-signals/nih_grant_signals.py
* `score_grant`             — scripts/nih-signals/nih_grant_signals.py
* `score_grant_v2`          — scripts/nih-signals/nih_grant_signals_v2.py
* `calculate_succession_score`, the score ≥ 40 filter and the descending
  sort                      — scripts/filter-succession-signals.py
* `fetch_grants`            — scripts/nih-signals/nih_grant_signals.py
* `scrape_healthcare_providers` — scripts/72h-sprint/myo-demand-healthcare.py

Embedding conventions: Python dict `.get` with a default becomes `Option`
plus `getD`; dates are day ordinals (`Int`), so `datetime.now() - d` is
integer subtraction of days; Python float quantities (AUM) and float
divisions (`days / 365`, `days / 30`) become exact rational arithmetic
over `ℚ`; HTTP calls become an explicit oracle function passed as an
argument, `Except Unit` distinguishing a transport failure from a JSON
body.  The human-readable reason strings built next to the succession
score are not modelled: no checked property concerns them.
-/

/-- Characterwise prefix test, `listPre p l` iff `p` is a prefix of `l`. -/
def listPre : List Char → List Char → Bool
  | [], _ => true
  | _ :: _, [] => false
  | a :: as, b :: bs => a == b && listPre as bs

/-- Contiguous-sublist test on characters: Python `needle in haystack`. -/
def listSub (needle : List Char) : List Char → Bool
  | [] => needle.isEmpty
  | c :: rest => listPre needle (c :: rest) || listSub needle rest

/-- Python `pat in hay` on strings. -/
def strContains (hay pat : String) : Bool := listSub pat.data hay.data

/-- Python `str.lower()`. -/
def pyLower (s : String) : String := ⟨s.data.map Char.toLower⟩

/-- Python `str.strip()`: drop leading and trailing whitespace. -/
def pyStrip (s : String) : String :=
  ⟨((s.data.dropWhile Char.isWhitespace).reverse.dropWhile Char.isWhitespace).reverse⟩

/-- Python `s[:n]`: at most the first `n` characters. -/
def pySlice (s : String) (n : Nat) : String := ⟨s.data.take n⟩

/-- The `basic` object of an NPI Registry result (fields read by the scripts). -/
structure NpiBasic where
  organization_name : Option String
  first_name : Option String
  last_name : Option String
deriving DecidableEq

/-- One entry of the `addresses` list of an NPI Registry result. -/
structure NpiAddress where
  city : Option String
  state : Option String
deriving DecidableEq

/-- One entry of the `taxonomies` list of an NPI Registry result. -/
structure NpiTaxonomy where
  desc : Option String
deriving DecidableEq

/-- A raw NPI Registry provider record, as accessed by `extract_lead`:
`provider.get("basic")` with an empty-dict default becomes an `Option NpiBasic`,
likewise for the two lists. -/
structure NpiProvider where
  basic : Option NpiBasic
  taxonomies : Option (List NpiTaxonomy)
  addresses : Option (List NpiAddress)
deriving DecidableEq

/-- The flat lead schema produced by myo-demand-healthcare.py. -/
structure LeadRecord where
  company : String
  domain : String
  signal : String
  industry : String
  fullName : String
  title : String
  city : String
  state : String
deriving DecidableEq

/-- Embedding of `extract_lead(provider, state)` of
scripts/72h-sprint/myo-demand-healthcare.py (lines 132–168): derive the
company name from the organization name, falling back to
`"first last Practice".strip()`; return `None` when the guard
`not company or company == " Practice"` fires. -/
def extract_lead (provider : NpiProvider) (state : String) : Option LeadRecord :=
  let basic := provider.basic.getD ⟨none, none, none⟩
  let taxonomies := provider.taxonomies.getD []
  let specialty := match taxonomies with
    | [] => "Healthcare Provider"
    | t :: _ => t.desc.getD "Healthcare Provider"
  let addresses := provider.addresses.getD []
  let address := match addresses with
    | [] => (⟨none, none⟩ : NpiAddress)
    | a :: _ => a
  let org_name := basic.organization_name.getD ""
  let first_name := basic.first_name.getD ""
  let last_name := basic.last_name.getD ""
  let company :=
    if org_name ≠ "" then org_name
    else pyStrip (first_name ++ " " ++ last_name ++ " Practice")
  let full_name :=
    if org_name ≠ "" then ""
    else pyStrip (first_name ++ " " ++ last_name)
  if company = "" ∨ company = " Practice" then none
  else some
    { company := company
      domain := ""
      signal := "Healthcare Provider - " ++ pySlice specialty 40
      industry := "Healthcare"
      fullName := full_name
      title := specialty
      city := address.city.getD ""
      state := address.state.getD state }

/-- The end-to-end RawRecord of the testable property in the spec:
organization name "Acme Health", one Austin/TX address, one Cardiology
taxonomy. -/
def acmeRecord : NpiProvider :=
  ⟨some ⟨some "Acme Health", none, none⟩,
   some [⟨some "Cardiology"⟩],
   some [⟨some "Austin", some "TX"⟩]⟩

/-- A RawRecord with no organization name and no first/last name. -/
def namelessRecord : NpiProvider := ⟨some ⟨none, none, none⟩, some [], some []⟩

/-- Amount block of `score_grant` (nih_grant_signals.py lines 175–183),
shared verbatim by `score_grant_v2`. -/
def amountPoints (amount : Int) : Nat :=
  if amount ≥ 2000000 then 40
  else if amount ≥ 1000000 then 30
  else if amount ≥ 500000 then 20
  else 10

/-- Recency block of `score_grant` (lines 185–197): `start_date` is the
parsed project start date as a day ordinal, `none` when the field is empty
or `strptime` fails (the bare `except: pass`). -/
def recencyPoints (now : Int) (start_date : Option Int) : Nat :=
  match start_date with
  | none => 0
  | some start =>
    let days_ago := now - start
    if days_ago ≤ 30 then 30
    else if days_ago ≤ 60 then 20
    else if days_ago ≤ 90 then 10
    else 0

/-- Activity-code block of `score_grant` (lines 199–205). -/
def activityPoints (activity_code : String) : Nat :=
  if activity_code ∈ ["R43", "R44", "R41", "R42"] then 20
  else if activity_code ∈ ["R01", "U01"] then 15
  else if activity_code ∈ ["R21"] then 10
  else 0

/-- The additive score accumulated by `score_grant` before tier
assignment: `score = 0`, then the three `score +=` blocks in source
order. -/
def score_grant_points (now : Int) (amount : Int) (start_date : Option Int)
    (activity_code : String) : Nat :=
  let score : Nat := 0
  let score := score + amountPoints amount
  let score := score + recencyPoints now start_date
  let score := score + activityPoints activity_code
  score

/-- Embedding of `score_grant(amount, start_date, end_date, activity_code)`
of nih_grant_signals.py (lines 170–213).  The Python function reads the
wall clock; here `now` is the current day ordinal, passed explicitly.
`end_date` is accepted and ignored exactly as in the source. -/
def score_grant (now : Int) (amount : Int) (start_date end_date : Option Int)
    (activity_code : String) : String :=
  let _ := end_date
  let score := score_grant_points now amount start_date activity_code
  if score ≥ 70 then "A"
  else if score ≥ 45 then "B"
  else "C"

/-- The additive score accumulated by `score_grant_v2`
(nih_grant_signals_v2.py lines 270–316): the three blocks of `score_grant`
followed by the is-active, new-grant and commercial-organization bonuses. -/
def score_grant_v2_points (now : Int) (amount : Int) (start_date : Option Int)
    (activity_code : String) (is_active is_new : Bool) (org_type : String) : Nat :=
  let score : Nat := 0
  let score := score + amountPoints amount
  let score := score + recencyPoints now start_date
  let score := score + activityPoints activity_code
  let score := score + (if is_active then 10 else 0)
  let score := score + (if is_new then 10 else 0)
  let score := score +
    (if org_type ≠ "" ∧ strContains org_type "Higher Education" = false then 10 else 0)
  score

/-- Embedding of `score_grant_v2` of nih_grant_signals_v2.py
(lines 270–327), tier thresholds 80/65/50. -/
def score_grant_v2 (now : Int) (amount : Int) (start_date end_date : Option Int)
    (activity_code : String) (is_active is_new : Bool) (org_type : String) : String :=
  let _ := end_date
  let score := score_grant_v2_points now amount start_date activity_code is_active is_new org_type
  if score ≥ 80 then "A+"
  else if score ≥ 65 then "A"
  else if score ≥ 50 then "B"
  else "C"

/-- The fields of one roster row read by `calculate_succession_score`:
column `3A` (organization type), the parsed formation date and latest ADV
filing date as day ordinals (absent or unparseable becomes `none`), and
the parsed AUM as an exact rational. -/
structure SuccessionRow where
  orgType : String
  formation : Option Int
  aum : ℚ
  lastFiled : Option Int
deriving DecidableEq

/-- Ownership block of `calculate_succession_score`
(filter-succession-signals.py lines 61–71): substring tests on the
lowercased `3A` column. -/
def ownershipPoints (orgType : String) : Nat :=
  let org_type := pyLower orgType
  if strContains org_type "individual" || strContains org_type "sole" then 30
  else if strContains org_type "partnership" then 15
  else if strContains org_type "corporation" || strContains org_type "llc" then 10
  else 0

/-- Firm-age block (lines 73–85): `years_old = (now - formation).days / 365`
as exact rational division. -/
def agePoints (now : Int) (formation : Option Int) : Nat :=
  match formation with
  | none => 0
  | some f =>
    let years_old : ℚ := ((now - f : Int) : ℚ) / 365
    if years_old ≥ 20 then 25
    else if years_old ≥ 15 then 20
    else if years_old ≥ 10 then 10
    else 0

/-- AUM block (lines 87–97): the $50M–$500M sweet spot is worth 25, larger
AUM only 15, and $20M–$50M is worth 10. -/
def aumPoints (aum : ℚ) : Nat :=
  if 50000000 ≤ aum ∧ aum ≤ 500000000 then 25
  else if aum > 500000000 then 15
  else if aum ≥ 20000000 then 10
  else 0

/-- Filing-recency block (lines 99–108): `months_since = days / 30` as
exact rational division. -/
def filedPoints (now : Int) (lastFiled : Option Int) : Nat :=
  match lastFiled with
  | none => 0
  | some l =>
    let months_since : ℚ := ((now - l : Int) : ℚ) / 30
    if months_since ≤ 6 then 20
    else if months_since ≤ 12 then 15
    else 0

/-- Embedding of `calculate_succession_score(row)` of
filter-succession-signals.py (lines 54–110): `score = 0` then the four
`score +=` blocks in source order.  The joined reason string the source
returns alongside the score is not modelled. -/
def calculate_succession_score (now : Int) (row : SuccessionRow) : Nat :=
  let score : Nat := 0
  let score := score + ownershipPoints row.orgType
  let score := score + agePoints now row.formation
  let score := score + aumPoints row.aum
  let score := score + filedPoints now row.lastFiled
  score

/-- The select-and-sort step of `main` in filter-succession-signals.py
(lines 147–152): score every row, keep rows with score ≥ 40, sort by score
descending. -/
def selectHighSignal (now : Int) (rows : List SuccessionRow) : List (SuccessionRow × Nat) :=
  let scored := rows.map (fun r => (r, calculate_succession_score now r))
  let high := scored.filter (fun p => 40 ≤ p.2)
  high.mergeSort (fun a b => b.2 ≤ a.2)

/-- The paginating while-loop of `fetch_grants` (nih_grant_signals.py
lines 84–117).  The network is an oracle `api offset limit` returning a
transport failure or the `results` list of the page body; one call is made per
iteration with `offset = len(all_results)` and
`limit = min(500, target - len(all_results))`, mirroring the source.  An
error breaks out of the loop, an empty page breaks, and otherwise the page
is appended and the loop continues until the target is met. -/
def fetchLoop {α : Type} (api : Nat → Nat → Except Unit (List α)) (target : Nat)
    (acc : List α) : List α :=
  if h : acc.length < target then
    match api acc.length (min 500 (target - acc.length)) with
    | .error _ => acc
    | .ok results =>
      if hr : results.isEmpty then acc
      else fetchLoop api target (acc ++ results)
  else acc
  termination_by target - acc.length
  decreasing_by
    have hlen : 0 < results.length := by
      cases results with
      | nil => simp at hr
      | cons a l => simp
    simp only [List.length_append]
    omega

/-- Embedding of `fetch_grants(query)`: run the pagination loop from an
empty accumulator; `target` is the `limit` of the query. -/
def fetch_grants {α : Type} (api : Nat → Nat → Except Unit (List α)) (target : Nat) : List α :=
  fetchLoop api target []

/-- One city of `scrape_healthcare_providers` (myo-demand-healthcare.py
lines 100–123): a transport failure or bad body is caught, printed and
skipped, contributing no leads; otherwise the providers of the page are run
through `extract_lead` and the `None` results are not appended. -/
def scrapeCity (api : String → String → Except Unit (List NpiProvider))
    (state city : String) : List LeadRecord :=
  match api state city with
  | .error _ => []
  | .ok providers => providers.filterMap (fun p => extract_lead p state)

/-- Embedding of `scrape_healthcare_providers` (lines 77–129): iterate the
states of the volume config and their city lists, accumulating `all_leads`. -/
def scrape_healthcare_providers (api : String → String → Except Unit (List NpiProvider))
    (cities : List (String × List String)) : List LeadRecord :=
  cities.foldl (fun acc sc => sc.2.foldl (fun a city => a ++ scrapeCity api sc.1 city) acc) []

/-- A CSV source record: an association list from field names to values
(the Python dicts handed to `csv.DictWriter`). -/
def CsvRow : Type := List (String × String)

/-- Python `row.get(k)` on an association list. -/
def rowGet (row : CsvRow) (k : String) : Option String :=
  (List.find? (fun p => p.1 == k) row).map (fun p => p.2)

/-- One data row as `csv.DictWriter` emits it: the fieldnames in order,
a missing key written as the default `restval` empty string. -/
def dictWriterRow (fieldnames : List String) (row : CsvRow) : List String :=
  fieldnames.map (fun c => (rowGet row c).getD "")

/-- Does the row only use keys among the fieldnames?  `csv.DictWriter`
with the default `extrasaction="raise"` raises `ValueError` otherwise. -/
def rowKeysOk (fieldnames : List String) (row : CsvRow) : Bool :=
  List.all row (fun p => fieldnames.contains p.1)

/-- The fixed column list of `save_to_csv` in
myo-supply-healthcare-startups.py (line 178). -/
def supplyColumns : List String :=
  ["company", "domain", "description", "capability", "industry", "signal"]

/-- Embedding of `save_to_csv(startups)` of
myo-supply-healthcare-startups.py (lines 171–183): nothing is written for
an empty list; otherwise a header row then one row per record, with
`extrasaction="ignore"`, so extra keys are silently dropped. -/
def save_to_csv (startups : List CsvRow) : Option (List String × List (List String)) :=
  if startups.isEmpty then none
  else some (supplyColumns, startups.map (dictWriterRow supplyColumns))

/-- The fixed column list of `export_csv` in nih_grant_signals.py
(lines 251–255). -/
def exportFieldnames : List String :=
  ["org_name", "org_city", "org_state", "pi_name", "pi_email",
   "grant_amount", "start_date", "end_date", "project_title",
   "activity_code", "fiscal_year", "signal_type", "signal_score", "abstract"]

/-- Embedding of `export_csv(signals, output_file)` of nih_grant_signals.py
(lines 244–260): nothing is written for an empty list; otherwise the
DictWriter is constructed without `extrasaction`, so a record with a key
outside the fieldnames makes `writerows` raise `ValueError` (modelled as
`Except.error`), and otherwise header plus one row per record are
written. -/
def export_csv (signals : List CsvRow) :
    Option (Except Unit (List String × List (List String))) :=
  if signals.isEmpty then none
  else some (
    if List.all signals (rowKeysOk exportFieldnames) then
      .ok (exportFieldnames, signals.map (dictWriterRow exportFieldnames))
    else .error ())

/-- A signal record carrying a key (`note`) outside `exportFieldnames`. -/
def badSignalRow : CsvRow := [("org_name", "Acme Bio"), ("note", "x")]

/-- A signal record using only keys of `exportFieldnames`. -/
def okSignalRow : CsvRow := [("org_name", "Acme Bio"), ("grant_amount", "2000000")]

/-- A supply record with an extra key, ignored by `save_to_csv`. -/
def goodLeadRow : CsvRow := [("company", "HealthCo"), ("extra", "ignored")]

/-- An oracle whose very first request fails at the transport level. -/
def apiFailFirst : Nat → Nat → Except Unit (List Nat) := fun _ _ => .error ()

/-- An oracle answering every request with exactly the page size asked for. -/
def apiFull : Nat → Nat → Except Unit (List Nat) := fun _ l => .ok (List.replicate l 0)

/-- A city oracle that fails on Dallas and answers one provider elsewhere. -/
def apiDallasDown : String → String → Except Unit (List NpiProvider) :=
  fun _ city => if city = "Dallas" then .error () else .ok [acmeRecord]

/-- A roster row whose AUM sits exactly at the top of the sweet spot. -/
def rowSweetSpot : SuccessionRow := ⟨"", none, 500000000, none⟩

/-- The same roster row with one more dollar of AUM. -/
def rowOverSweetSpot : SuccessionRow := ⟨"", none, 500000001, none⟩

/-! ## Helper lemmas shared between claims -/

theorem agePoints_anti (now f g : Int) (h : g ≤ f) :
    agePoints now (some f) ≤ agePoints now (some g) := by
  have hi : (now - f) ≤ (now - g) := by omega
  have hq : ((now - f : Int) : ℚ) / 365 ≤ ((now - g : Int) : ℚ) / 365 := by
    gcongr
  simp only [agePoints]
  split_ifs <;> first | omega | linarith

theorem filedPoints_mono (now l l' : Int) (h : l ≤ l') :
    filedPoints now (some l) ≤ filedPoints now (some l') := by
  have hi : (now - l') ≤ (now - l) := by omega
  have hq : ((now - l' : Int) : ℚ) / 30 ≤ ((now - l : Int) : ℚ) / 30 := by
    gcongr
  simp only [filedPoints]
  split_ifs <;> first | omega | linarith

theorem amountPoints_mono (a a' : Int) (h : a ≤ a') :
    amountPoints a ≤ amountPoints a' := by
  simp only [amountPoints]
  split_ifs <;> omega

theorem recencyPoints_mono (now s s' : Int) (h : s ≤ s') :
    recencyPoints now (some s) ≤ recencyPoints now (some s') := by
  simp only [recencyPoints]
  split_ifs <;> omega

theorem fetchLoop_length_le {α : Type} (api : Nat → Nat → Except Unit (List α))
    (target : Nat) (hapi : ∀ off l page, api off l = .ok page → page.length ≤ l) :
    ∀ acc : List α, acc.length ≤ target → (fetchLoop api target acc).length ≤ target := by
  intro acc
  induction acc using fetchLoop.induct api target with
  | case1 acc h r hmatch =>
      intro hacc
      rw [fetchLoop, dif_pos h, hmatch]
      exact hacc
  | case2 acc h results hmatch hr =>
      intro hacc
      rw [fetchLoop, dif_pos h, hmatch]
      simpa [hr] using hacc
  | case3 acc h results hmatch hr ih =>
      intro _
      rw [fetchLoop, dif_pos h, hmatch]
      have hle := hapi _ _ _ hmatch
      have hlen : (acc ++ results).length ≤ target := by
        simp only [List.length_append]
        omega
      simpa [hr] using ih hlen
  | case4 acc h =>
      intro hacc
      rw [fetchLoop, dif_neg h]
      exact hacc

theorem foldl_scrape_eq (g : String → List LeadRecord) :
    ∀ (cities : List String) (acc : List LeadRecord),
      cities.foldl (fun a c => a ++ g c) acc = acc ++ (cities.map g).flatten := by
  intro cities
  induction cities with
  | nil => intro acc; simp
  | cons c cs ih => intro acc; simp [ih]

/-! ## The claims -/

/-- C1: the spec requires that a RawRecord with no organization name and no
first/last name yields no record.  The code is a slip: `company` is built
with `.strip()`, so for empty names it is `"Practice"`, never the
unstripped sentinel `" Practice"` the guard compares against, and the
record IS emitted, with the fabricated company name `"Practice"`. -/
theorem c1_nameless_record_emitted :
    extract_lead namelessRecord "TX" =
      some ⟨"Practice", "", "Healthcare Provider - Healthcare Provider",
            "Healthcare", "", "Healthcare Provider", "", "TX"⟩ := by decide

/-- C2: on the RawRecord with organization name "Acme Health", one
Austin/TX address and one Cardiology taxonomy, `extract_lead` produces
exactly the LeadRecord of the spec, whatever the state argument of the
surrounding city loop is. -/
theorem c2_acme_end_to_end (st : String) : extract_lead acmeRecord st =
    some ⟨"Acme Health", "", "Healthcare Provider - Cardiology",
          "Healthcare", "", "Cardiology", "Austin", "TX"⟩ := rfl

/-- C3 counterexample: increasing the AUM input alone can decrease the
succession score.  One dollar past the $500M sweet spot drops the AUM
contribution from 25 to 15. -/
theorem c3_counterexample :
    rowSweetSpot.aum < rowOverSweetSpot.aum ∧
    calculate_succession_score 0 rowOverSweetSpot
      < calculate_succession_score 0 rowSweetSpot := by
  constructor
  · decide
  · decide

/-- C3 amended: increasing firm age (an earlier formation date), filing
recency (a later last-filing date), grant amount, or start-date recency
(a later start date), holding every other input fixed, never decreases
the score; the AUM input is excluded, being deliberately non-monotone. -/
theorem c3_amended_monotonicity (now : Int) (o : String) (a : ℚ)
    (lf fm : Option Int) (f f' l l' s s' amount amount' : Int)
    (sd : Option Int) (code : String) :
    (f' ≤ f → calculate_succession_score now ⟨o, some f, a, lf⟩
      ≤ calculate_succession_score now ⟨o, some f', a, lf⟩)
  ∧ (l ≤ l' → calculate_succession_score now ⟨o, fm, a, some l⟩
      ≤ calculate_succession_score now ⟨o, fm, a, some l'⟩)
  ∧ (amount ≤ amount' → score_grant_points now amount sd code
      ≤ score_grant_points now amount' sd code)
  ∧ (s ≤ s' → score_grant_points now amount (some s) code
      ≤ score_grant_points now amount (some s') code) := by
  refine ⟨fun h => ?_, fun h => ?_, fun h => ?_, fun h => ?_⟩
  · have := agePoints_anti now f f' h
    simp only [calculate_succession_score]
    omega
  · have := filedPoints_mono now l l' h
    simp only [calculate_succession_score]
    omega
  · have := amountPoints_mono amount amount' h
    simp only [score_grant_points]
    omega
  · have := recencyPoints_mono now s s' h
    simp only [score_grant_points]
    omega

/-- C3 amended, witnessed at concrete inputs: an older firm, a more recent
filing, a larger grant, and a more recent start each score at least as
high. -/
theorem c3_amended_monotonicity_witness :
    (calculate_succession_score 0 ⟨"", some 0, 0, none⟩
      ≤ calculate_succession_score 0 ⟨"", some (-10000), 0, none⟩)
  ∧ (calculate_succession_score 0 ⟨"", none, 0, some (-400)⟩
      ≤ calculate_succession_score 0 ⟨"", none, 0, some 0⟩)
  ∧ (score_grant_points 0 500000 none "R21"
      ≤ score_grant_points 0 2500000 none "R21")
  ∧ (score_grant_points 0 500000 (some (-100)) "R21"
      ≤ score_grant_points 0 500000 (some 0) "R21") := by
  obtain ⟨h1, h2, h3, h4⟩ := c3_amended_monotonicity 0 "" 0 none none
    0 (-10000) (-400) 0 (-100) 0 500000 2500000 none "R21"
  exact ⟨h1 (by norm_num), h2 (by norm_num), h3 (by norm_num), h4 (by norm_num)⟩

/-- C4 counterexample: the nih-signals CSV Writer builds its `DictWriter`
without `extrasaction`, so a record carrying a field outside the fixed
column list is not ignored: `writerows` raises, instead of emitting the
row restricted to the columns. -/
theorem c4_counterexample :
    export_csv [badSignalRow] = some (.error ())
    ∧ export_csv [badSignalRow]
        ≠ some (.ok (exportFieldnames, [dictWriterRow exportFieldnames badSignalRow])) := by
  refine ⟨rfl, ?_⟩
  rw [show export_csv [badSignalRow] = some (.error ()) from rfl]
  simp

/-- C4 amended: for a nonempty record sequence, `save_to_csv` writes the
fixed header and one row per record with exactly the fixed column set,
missing fields as empty strings and extra fields ignored; `export_csv`
does the same only when the keys of every record lie inside the column list
(a record with an extra key makes it raise instead). -/
theorem c4_amended_fixed_columns (startups signals : List CsvRow)
    (h1 : ¬ startups.isEmpty = true) (h2 : ¬ signals.isEmpty = true)
    (h3 : List.all signals (rowKeysOk exportFieldnames) = true) :
    save_to_csv startups = some (supplyColumns, startups.map (dictWriterRow supplyColumns))
  ∧ export_csv signals
      = some (.ok (exportFieldnames, signals.map (dictWriterRow exportFieldnames)))
  ∧ (∀ row ∈ startups.map (dictWriterRow supplyColumns), row.length = supplyColumns.length)
  ∧ (∀ row ∈ signals.map (dictWriterRow exportFieldnames), row.length = exportFieldnames.length) := by
  refine ⟨?_, ?_, ?_, ?_⟩
  · simp [save_to_csv, h1]
  · simp [export_csv, h2, h3]
  · intro row hrow
    obtain ⟨r, _, rfl⟩ := List.mem_map.mp hrow
    simp [dictWriterRow]
  · intro row hrow
    obtain ⟨r, _, rfl⟩ := List.mem_map.mp hrow
    simp [dictWriterRow]

/-- C4 amended, witnessed: one supply record with an extra key is written
with the fixed six columns, and one well-keyed signal record is written
with the fixed fourteen columns. -/
theorem c4_amended_fixed_columns_witness :
    save_to_csv [goodLeadRow]
      = some (supplyColumns, [goodLeadRow].map (dictWriterRow supplyColumns))
  ∧ export_csv [okSignalRow]
      = some (.ok (exportFieldnames, [okSignalRow].map (dictWriterRow exportFieldnames)))
  ∧ (∀ row ∈ [goodLeadRow].map (dictWriterRow supplyColumns), row.length = supplyColumns.length)
  ∧ (∀ row ∈ [okSignalRow].map (dictWriterRow exportFieldnames), row.length = exportFieldnames.length) :=
  c4_amended_fixed_columns [goodLeadRow] [okSignalRow]
    (by decide) (by decide) (by decide)

/-- C5: tier assignment is an ordered threshold lookup on the additive
score, highest threshold first: in `score_grant`, A iff the score
reaches 70, B iff it is in [45, 70), C otherwise; in `score_grant_v2`,
A+ iff it reaches 80, A iff in [65, 80), B iff in [50, 65), C otherwise. -/
theorem c5_tier_thresholds (now amount : Int) (sd ed : Option Int) (code : String)
    (ia inew : Bool) (ot : String) :
    (score_grant now amount sd ed code = "A"
      ↔ 70 ≤ score_grant_points now amount sd code)
  ∧ (score_grant now amount sd ed code = "B"
      ↔ 45 ≤ score_grant_points now amount sd code
        ∧ score_grant_points now amount sd code < 70)
  ∧ (score_grant now amount sd ed code = "C"
      ↔ score_grant_points now amount sd code < 45)
  ∧ (score_grant_v2 now amount sd ed code ia inew ot = "A+"
      ↔ 80 ≤ score_grant_v2_points now amount sd code ia inew ot)
  ∧ (score_grant_v2 now amount sd ed code ia inew ot = "A"
      ↔ 65 ≤ score_grant_v2_points now amount sd code ia inew ot
        ∧ score_grant_v2_points now amount sd code ia inew ot < 80)
  ∧ (score_grant_v2 now amount sd ed code ia inew ot = "B"
      ↔ 50 ≤ score_grant_v2_points now amount sd code ia inew ot
        ∧ score_grant_v2_points now amount sd code ia inew ot < 65)
  ∧ (score_grant_v2 now amount sd ed code ia inew ot = "C"
      ↔ score_grant_v2_points now amount sd code ia inew ot < 50) := by
  simp only [score_grant, score_grant_v2]
  split_ifs <;> simp_all <;> omega

/-- C6: the scorers are deterministic with no hidden state or history
across records: within one batch the output at a position depends only on
the record at that position, two positions holding the same record score
identically, and the grant score decomposes into independent per-input
contributions whose summation order is irrelevant. -/
theorem c6_scorer_deterministic (now amount : Int) (sd : Option Int) (code : String)
    (grants : List (Int × Option Int × Option Int × String))
    (rows : List SuccessionRow) (i j : Nat)
    (hij : grants[i]? = grants[j]?) :
    ((grants.map (fun g => score_grant now g.1 g.2.1 g.2.2.1 g.2.2.2))[i]?
      = (grants.map (fun g => score_grant now g.1 g.2.1 g.2.2.1 g.2.2.2))[j]?)
  ∧ ((rows.map (calculate_succession_score now))[i]?
      = (rows[i]?).map (calculate_succession_score now))
  ∧ (score_grant_points now amount sd code
      = amountPoints amount + recencyPoints now sd + activityPoints code)
  ∧ (score_grant_points now amount sd code
      = activityPoints code + (recencyPoints now sd + amountPoints amount)) := by
  refine ⟨?_, ?_, ?_, ?_⟩
  · rw [List.getElem?_map, List.getElem?_map, hij]
  · rw [List.getElem?_map]
  · simp only [score_grant_points]
    omega
  · simp only [score_grant_points]
    omega

/-- C6, witnessed: a batch holding the same grant at positions 0 and 1
assigns it the same tier at both positions. -/
theorem c6_scorer_deterministic_witness :
    (([((2500000 : Int), some (0 : Int), none, "R43"),
       ((2500000 : Int), some (0 : Int), none, "R43")].map
        (fun g => score_grant 10 g.1 g.2.1 g.2.2.1 g.2.2.2))[0]?
      = ([((2500000 : Int), some (0 : Int), none, "R43"),
          ((2500000 : Int), some (0 : Int), none, "R43")].map
           (fun g => score_grant 10 g.1 g.2.1 g.2.2.1 g.2.2.2))[1]?) :=
  (c6_scorer_deterministic 10 2500000 none "R43"
    [(2500000, some 0, none, "R43"), (2500000, some 0, none, "R43")]
    [] 0 1 (by decide)).1

/-- C7: a transport failure is non-fatal and unretried: the grant
pagination loop stops at a failing request and returns exactly the records
accumulated before it, and the provider scraper skips a failing city,
the run producing precisely what it would produce without that city. -/
theorem c7_failure_skipped (api : Nat → Nat → Except Unit (List Nat)) (target : Nat)
    (acc : List Nat) (capi : String → String → Except Unit (List NpiProvider))
    (st bad : String) (pre post : List String)
    (h1 : acc.length < target)
    (h2 : api acc.length (min 500 (target - acc.length)) = .error ())
    (h3 : capi st bad = .error ()) :
    fetchLoop api target acc = acc
    ∧ scrape_healthcare_providers capi [(st, pre ++ bad :: post)]
        = scrape_healthcare_providers capi [(st, pre ++ post)] := by
  constructor
  · rw [fetchLoop, dif_pos h1, h2]
  · have hbad : scrapeCity capi st bad = [] := by
      simp [scrapeCity, h3]
    simp only [scrape_healthcare_providers, List.foldl_cons, List.foldl_nil]
    rw [foldl_scrape_eq, foldl_scrape_eq]
    simp [hbad]

/-- C7, witnessed: a first-request transport failure yields the empty
partial result, and a run whose Dallas request fails equals the run
without Dallas. -/
theorem c7_failure_skipped_witness :
    fetchLoop apiFailFirst 5 [] = []
    ∧ scrape_healthcare_providers apiDallasDown [("TX", ["Austin", "Dallas", "Houston"])]
        = scrape_healthcare_providers apiDallasDown [("TX", ["Austin", "Houston"])] :=
  c7_failure_skipped apiFailFirst 5 [] apiDallasDown "TX" "Dallas"
    ["Austin"] ["Houston"] (by decide) rfl rfl

/-- C8: when every page the API returns respects the per-page count
requested of it, the pagination loop returns at most `target` records; it
makes no further request once the target is met, and an empty page stops
it. -/
theorem c8_pagination_bounded (api : Nat → Nat → Except Unit (List Nat))
    (target : Nat) (acc : List Nat)
    (hapi : ∀ off l page, api off l = .ok page → page.length ≤ l) :
    (fetch_grants api target).length ≤ target
  ∧ (target ≤ acc.length → fetchLoop api target acc = acc)
  ∧ (acc.length < target → api acc.length (min 500 (target - acc.length)) = .ok [] →
      fetchLoop api target acc = acc) := by
  refine ⟨?_, ?_, ?_⟩
  · exact fetchLoop_length_le api target hapi [] (by simp)
  · intro h
    rw [fetchLoop, dif_neg (by omega)]
  · intro h hempty
    rw [fetchLoop, dif_pos h, hempty]
    simp

/-- C8, witnessed: against an API that always fills exactly the page size
requested, a fetch with target 7 returns at most 7 records. -/
theorem c8_pagination_bounded_witness :
    (fetch_grants apiFull 7).length ≤ 7 :=
  (c8_pagination_bounded apiFull 7 []
    (by
      intro off l page hp
      simp only [apiFull, Except.ok.injEq] at hp
      subst hp
      simp)).1

/-- C9: every row the succession script exports scores at least 40, and
the export is ordered by non-increasing succession score. -/
theorem c9_export_filtered_sorted (now : Int) (rows : List SuccessionRow) :
    (selectHighSignal now rows).all (fun p => 40 ≤ p.2) = true
    ∧ (selectHighSignal now rows).Pairwise (fun p q => q.2 ≤ p.2) := by
  constructor
  · rw [List.all_eq_true]
    intro p hp
    simp only [selectHighSignal] at hp
    have hp2 := List.mem_mergeSort.mp hp
    exact (List.mem_filter.mp hp2).2
  · have hs := @List.sorted_mergeSort (SuccessionRow × Nat)
      (fun p q => decide (q.2 ≤ p.2))
      (fun a b c hab hbc => by
        simp only [decide_eq_true_eq] at *
        omega)
      (fun a b => by
        simp only [Bool.or_eq_true, decide_eq_true_eq]
        omega)
      ((rows.map (fun r => (r, calculate_succession_score now r))).filter
        (fun p => 40 ≤ p.2))
    simp only [selectHighSignal]
    exact hs.imp (fun h => of_decide_eq_true h)

/-- C10: the succession score is the sum of four independent
contributions — ownership type, firm age, AUM, filing recency — bounded
by 30, 25, 25 and 20 respectively, so the total always lies in [0, 100]. -/
theorem c10_succession_score_decomposition (now : Int) (row : SuccessionRow) :
    calculate_succession_score now row
      = ownershipPoints row.orgType + agePoints now row.formation
        + aumPoints row.aum + filedPoints now row.lastFiled
  ∧ ownershipPoints row.orgType ≤ 30
  ∧ agePoints now row.formation ≤ 25
  ∧ aumPoints row.aum ≤ 25
  ∧ filedPoints now row.lastFiled ≤ 20
  ∧ calculate_succession_score now row ≤ 100 := by
  have hown : ownershipPoints row.orgType ≤ 30 := by
    simp only [ownershipPoints]
    split_ifs <;> omega
  have hage : agePoints now row.formation ≤ 25 := by
    cases row.formation with
    | none => simp [agePoints]
    | some f =>
      simp only [agePoints]
      split_ifs <;> omega
  have haum : aumPoints row.aum ≤ 25 := by
    simp only [aumPoints]
    split_ifs <;> omega
  have hfil : filedPoints now row.lastFiled ≤ 20 := by
    cases row.lastFiled with
    | none => simp [filedPoints]
    | some l =>
      simp only [filedPoints]
      split_ifs <;> omega
  refine ⟨?_, hown, hage, haum, hfil, ?_⟩
  · simp only [calculate_succession_score]
    omega
  · simp only [calculate_succession_score]
    omega
